import Mathlib

/-!
# Verification of the sleepy_sensor duty-cycle controller

Shallow embedding of the duty-cycle state machine (`src/main.cpp`), the
RAK4631 board sleep entry (`variants/rak4631/RAK4631Board.cpp`) and the two
RTC wakeup backends (`variants/rak4631/DS3231Wakeup.cpp`,
`variants/rak4631/RV3028Wakeup.cpp`).

Machine integers are modelled as `Nat` with explicit masks/moduli where
overflow or wrap-around matters (`uint8` status registers are `Nat < 256`,
the `millis()` counter wraps at `2 ^ 32`).  Sensor readings are `float` in
the C++ source; here they are abstracted to `ℚ` (the claims under study are
about *which* values are sampled and averaged, not about rounding).
-/

namespace SleepySensor

/-! ## DS3231 BCD helpers (DS3231Wakeup.cpp, `bcdToDec` / `decToBcd`) -/

/-- `bcdToDec` from `DS3231Wakeup.cpp`: `(bcd >> 4) * 10 + (bcd & 0x0F)`. -/
def bcdToDec (bcd : Nat) : Nat := (bcd / 16) * 10 + (bcd % 16)

/-- `decToBcd` from `DS3231Wakeup.cpp`: `((val / 10) << 4) | (val % 10)`. -/
def decToBcd (val : Nat) : Nat := (val / 10) * 16 ||| (val % 10)

/-! ## DS3231 wake detection (`DS3231Wakeup::checkWakeup`)

The status register is a `uint8`; on the successful-I2C path the function
reads it once, and iff bit 0 (A1F, the Alarm 1 flag) is set it writes back
`status & ~0x01` (`= status & 0xFE` on 8 bits) and returns `true`.
The I2C-failure paths return `false` without writing; they are irrelevant
to the register-content claims and are not modelled here. -/

/-- `DS3231Wakeup::checkWakeup` on the successful-I2C path: result paired
with the status-register value after the call. -/
def ds3231CheckWakeup (status : Nat) : Bool × Nat :=
  if status &&& 0x01 ≠ 0 then (true, status &&& 0xFE) else (false, status)

/-! ## RV3028 wake detection (`RV3028Wakeup::checkWakeup`)

The status register is read via the Melopero library; iff the timer event
flag TF is set the backend calls `_rtc.clearInterruptFlags(true, false,
false)`, which per the library boundary (spec §4.3: "clears exactly that
flag, not alarm-related flags") writes back the status with only TF
cleared.  On the RV-3028 the status register has TF at bit 3 and AF at
bit 2 (library constants `TIMER_EVENT_FLAG`, `ALARM_FLAG`). -/

def TIMER_EVENT_FLAG : Nat := 0x08

def ALARM_FLAG : Nat := 0x04

/-- `RV3028Wakeup::checkWakeup`: result paired with the status-register
value after the call (`clearInterruptFlags(true,false,false)` modelled as
masking out TF only, i.e. `status & 0xF7`). -/
def rv3028CheckWakeup (status : Nat) : Bool × Nat :=
  if status &&& TIMER_EVENT_FLAG ≠ 0 then (true, status &&& 0xF7) else (false, status)

/-! ## RV3028 alarm programming (`RV3028Wakeup::setAlarm`) -/

/-- Timer clock frequency selector of the Melopero RV-3028 library
(`TimerClockFrequency`): 4096 Hz, 64 Hz, 1 Hz, or 1/60 Hz. -/
inductive TimerClockFrequency where
  | Hz4096
  | Hz64
  | Hz1
  | Hz1_60
deriving DecidableEq, Repr

/-- Countdown-timer configuration handed to
`enablePeriodicTimer(ticks, freq, repeat, interrupt)`. -/
structure RV3028TimerConfig where
  ticks : Nat
  freq : TimerClockFrequency
  repeatTimer : Bool
  interruptEnable : Bool
deriving DecidableEq, Repr

/-- `RV3028Wakeup::setAlarm(seconds)` as written: it disables the periodic
time update and the alarm, then calls
`enablePeriodicTimer(seconds, TimerClockFrequency::Hz1, false, true)` —
the frequency argument is the constant `Hz1` and the tick count is the raw
`seconds` value, for every input.  Returns the configuration together with
the function's boolean result (always `true`). -/
def rv3028SetAlarm (seconds : Nat) : RV3028TimerConfig × Bool :=
  ({ ticks := seconds, freq := .Hz1, repeatTimer := false, interruptEnable := true }, true)

/-- Modelled from the spec: the frequency selection that §4.3 / §8 of the
spec (and the doc comment in `RV3028Wakeup.h`) claim for the countdown
backend — 1 Hz with `d` ticks for `d ≤ 4095`, else 1/60 Hz with the tick
count rounded up to the nearest whole minute.  Used only to compare the
claimed behaviour with `rv3028SetAlarm`. -/
def rv3028SetAlarmSpec (seconds : Nat) : RV3028TimerConfig :=
  if seconds ≤ 4095 then
    { ticks := seconds, freq := .Hz1, repeatTimer := false, interruptEnable := true }
  else
    { ticks := (seconds + 59) / 60, freq := .Hz1_60, repeatTimer := false, interruptEnable := true }

/-! ## RAK4631 sleep entry (`RAK4631Board::enterLowPowerSleep`)

The function's observable steps, in order:
  * if `rtc_wakeup` is null: log an error and `return`;
  * otherwise call `rtc_wakeup->setAlarm(sleep_seconds)` — the boolean
    result is discarded by the C++ code;
  * configure GPIO sense, power down peripherals, write
    `NRF_POWER->SYSTEMOFF = 1` (the non-returning halt).

The model records the action trace and whether the call returns to its
caller or halts.  `setAlarmResult` is the value the backend's `setAlarm`
would return; the definition does not consult it, exactly like the C++. -/

inductive SleepAction where
  | logError
  | setAlarmCall (seconds : Nat)
  | gpioSense
  | powerDown
  | systemOff
deriving DecidableEq, Repr

inductive SleepOutcome where
  | halts
  | returns
deriving DecidableEq, Repr

structure SleepResult where
  actions : List SleepAction
  outcome : SleepOutcome
deriving DecidableEq, Repr

/-- `RAK4631Board::enterLowPowerSleep(sleep_seconds)` with `rtcPresent`
standing for `rtc_wakeup != nullptr`. -/
def enterLowPowerSleep (rtcPresent : Bool) (setAlarmResult : Bool) (sleepSeconds : Nat) :
    SleepResult :=
  if rtcPresent then
    { actions := [.setAlarmCall sleepSeconds, .gpioSense, .powerDown, .systemOff],
      outcome := .halts }
  else
    { actions := [.logError], outcome := .returns }

/-! ## DS3231 alarm programming (`DS3231Wakeup::setAlarm`)

On the successful-I2C path the function reads the current time (seconds,
minutes, hours, day-of-week) from the chip, converts the requested delay
to whole minutes rounding up, adds it with minute→hour→day carry and a
1–7 day wrap, and writes the four Alarm-1 registers:
  * seconds register `0x00` (A1M1 = 0, match seconds = 0);
  * minutes register `decToBcd(wake_min)` (A1M2 = 0, match minutes);
  * hours register `decToBcd(wake_hour)` when `minutes >= 60`, else `0x80`
    (A1M3 = 1, ignore hours);
  * day register `0x80` (A1M4 = 1, ignore day/date).
Note the current seconds value is read but never used in the target
computation.  The I2C-failure early returns (`return false`, nothing
written) are not modelled; `enterLowPowerSleep` takes the boolean result
as a parameter instead. -/

/-- The Alarm-1 configuration written by `DS3231Wakeup::setAlarm`:
decimal target fields plus the raw register bytes. -/
structure DS3231Alarm where
  wakeMin : Nat
  wakeHour : Nat
  wakeDay : Nat
  useHours : Bool
  secReg : Nat
  minReg : Nat
  hourReg : Nat
  dayReg : Nat
deriving DecidableEq, Repr

/-- `DS3231Wakeup::setAlarm(seconds)` given the decoded current RTC time
(`current_sec` is read from the chip but unused by the computation, as in
the source). -/
def ds3231SetAlarm (seconds current_sec current_min current_hour current_day : Nat) :
    DS3231Alarm :=
  let minutes := (seconds + 59) / 60
  let wake_min0 := current_min + minutes
  let wake_hour0 := if wake_min0 ≥ 60 then current_hour + wake_min0 / 60 else current_hour
  let wake_min := if wake_min0 ≥ 60 then wake_min0 % 60 else wake_min0
  let wake_day0 := if wake_hour0 ≥ 24 then current_day + wake_hour0 / 24 else current_day
  let wake_hour := if wake_hour0 ≥ 24 then wake_hour0 % 24 else wake_hour0
  let wake_day := if wake_day0 > 7 then (wake_day0 - 1) % 7 + 1 else wake_day0
  let use_hours := decide (minutes ≥ 60)
  { wakeMin := wake_min, wakeHour := wake_hour, wakeDay := wake_day, useHours := use_hours,
    secReg := 0x00,
    minReg := decToBcd wake_min,
    hourReg := if use_hours then decToBcd wake_hour else 0x80,
    dayReg := 0x80 }

/-! ## DS3231 clock semantics

To compare the programmed alarm with the requested delay (claim wording:
"converted back to linear seconds-from-now"), the chip's wall clock is
modelled as seconds/minutes/hours/day-of-week advancing one second at a
time, wrapping after a 7-day week.  An Alarm-1 configuration with
A1M1 = A1M2 = 0, A1M4 = 1 matches whenever seconds = 0 and the minute
equals the target (and, when hours are matched, the hour equals the
target hour). -/

structure RTCTime where
  sec : Nat
  min : Nat
  hour : Nat
  day : Nat
deriving DecidableEq, Repr

/-- A well-formed DS3231 time: `sec, min < 60`, `hour < 24`, `day ∈ 1..7`. -/
def RTCTime.Valid (c : RTCTime) : Prop :=
  c.sec < 60 ∧ c.min < 60 ∧ c.hour < 24 ∧ 1 ≤ c.day ∧ c.day ≤ 7

/-- Seconds since the start of the week (day 1, 00:00:00). -/
def RTCTime.toLinear (c : RTCTime) : Nat :=
  ((c.day - 1) * 24 + c.hour) * 3600 + c.min * 60 + c.sec

/-- The clock state a given number of seconds into the week. -/
def RTCTime.ofLinear (t : Nat) : RTCTime :=
  ⟨t % 60, t / 60 % 60, t / 3600 % 24, t / 86400 % 7 + 1⟩

/-- The clock `t` seconds after `c` (one week = 604800 seconds). -/
def RTCTime.advance (c : RTCTime) (t : Nat) : RTCTime :=
  RTCTime.ofLinear ((c.toLinear + t) % 604800)

/-- Does the programmed Alarm-1 configuration match the clock state `c`?
(Seconds must read 0, the minute must equal the target, and when hour
matching is enabled the hour must equal the target hour; day is ignored.) -/
def alarmMatches (a : DS3231Alarm) (c : RTCTime) : Bool :=
  c.sec == 0 && c.min == a.wakeMin && (!a.useHours || c.hour == a.wakeHour)

/-- The number of seconds from `c` until the alarm first fires: the least
`t ≥ 1` with `alarmMatches a (c.advance t)`, computed in closed form (the
alarm condition recurs with period 3600 s when hours are ignored and
86400 s when they are matched). -/
def fireDelay (a : DS3231Alarm) (c : RTCTime) : Nat :=
  let period := if a.useHours then 86400 else 3600
  let target := (if a.useHours then a.wakeHour * 3600 else 0) + a.wakeMin * 60
  let pos := c.toLinear % period
  (target + period - pos - 1) % period + 1

/-! ## Duty-cycle scheduler (`src/main.cpp`)

The state machine of `loop()`, with the `millis()` counter modelled as a
`uint32` value (all time differences in the source are computed as
wrap-around subtraction on `uint32`).  The sample array is modelled as the
C array is: a total function `Nat → ℚ` updated in place at index
`sample_count`; only indices below `sample_count` have been written. -/

/-- `uint32` subtraction `a - b` (wrap-around difference arithmetic), for
`a, b < 2 ^ 32`. -/
def u32sub (a b : Nat) : Nat := (a + 2 ^ 32 - b) % 2 ^ 32

def SAMPLE_INTERVAL_MS : Nat := 1000

def NUM_SAMPLES : Nat := 10

def MAX_AWAKE_TIME_MS : Nat := 5 * 60 * 1000

def INTERACTIVE_TIMEOUT_MS : Nat := 5 * 60 * 1000

/-- `enum SensorNodeState` from `main.cpp`. -/
inductive SensorNodeState where
  | SAMPLING
  | PROCESSING
  | ADVERTISING
  | READY_TO_SLEEP
  | INTERACTIVE_MODE
deriving DecidableEq, Repr

/-- The static scheduler variables of `main.cpp`. -/
@[ext]
structure SchedState where
  current_state : SensorNodeState
  state_start_time : Nat
  awake_start_time : Nat
  wakeup_count : Nat
  last_interactive_activity : Nat
  sensor_samples : Nat → ℚ
  sample_count : Nat
  last_sample_time : Nat

/-- Externally observable actions of one `loop()` iteration.  The
`PROCESSING` case of `loop()` computes the average of the collected
samples and prints it to the debug log (`logAverage`); the telemetry
broadcast itself (`broadcastApplicationTelemetry`, main.cpp:92-184)
encodes a battery reading taken freshly at broadcast time via
`board.getBattMilliVolts()`, not the computed average
(`broadcastTelemetry` carries that fresh reading). -/
inductive SchedAction where
  | takeSample (v : ℚ)
  | logAverage (avg : ℚ)
  | broadcastTelemetry (batt : ℚ)
  | sendAdvert
  | persistCounter (c : Nat)
  | enterSleep (seconds : Nat)
deriving DecidableEq, Repr

/-- The safety-timeout check at the top of `loop()`: in any state other
than `INTERACTIVE_MODE`, if `now - awake_start_time >= MAX_AWAKE_TIME_MS`
(uint32 difference), force `current_state = READY_TO_SLEEP`. -/
def safetyCheck (s : SchedState) (now : Nat) : SchedState :=
  if s.current_state ≠ .INTERACTIVE_MODE ∧
      u32sub now s.awake_start_time ≥ MAX_AWAKE_TIME_MS then
    { s with current_state := .READY_TO_SLEEP }
  else s

/-- The `switch (current_state)` body of `loop()`.  `reading` is the value
a `board.getBattMilliVolts() / 1000.0f` read yields this iteration — used
as the stored sample in `SAMPLING` and as the fresh battery value encoded
by `broadcastApplicationTelemetry` in `PROCESSING` (the computed average
is only logged there, never transmitted).  `wakeups_per_advert` and
`sleep_seconds` come from the mesh preferences.  The `READY_TO_SLEEP`
case persists the counter and calls `board.enterLowPowerSleep` (which
never returns); here the call is recorded as an action and the iteration
ends. -/
def stateStep (s : SchedState) (now : Nat) (reading : ℚ)
    (wakeups_per_advert : Nat) (sleep_seconds : Nat) :
    SchedState × List SchedAction :=
  match s.current_state with
  | .SAMPLING =>
      if u32sub now s.last_sample_time ≥ SAMPLE_INTERVAL_MS then
        let samples := fun j => if j = s.sample_count then reading else s.sensor_samples j
        let count := s.sample_count + 1
        let s' := { s with sensor_samples := samples, sample_count := count,
                           last_sample_time := now }
        if count ≥ NUM_SAMPLES then
          ({ s' with current_state := .PROCESSING, state_start_time := now },
           [.takeSample reading])
        else
          (s', [.takeSample reading])
      else (s, [])
  | .PROCESSING =>
      let avg := (∑ i ∈ Finset.range s.sample_count, s.sensor_samples i) /
                   (s.sample_count : ℚ)
      if s.wakeup_count ≥ wakeups_per_advert then
        ({ s with wakeup_count := 0, current_state := .ADVERTISING,
                  state_start_time := now },
         [.logAverage avg, .broadcastTelemetry reading])
      else
        ({ s with current_state := .READY_TO_SLEEP, state_start_time := now },
         [.logAverage avg, .broadcastTelemetry reading])
  | .ADVERTISING =>
      ({ s with current_state := .READY_TO_SLEEP, state_start_time := now },
       [.sendAdvert])
  | .READY_TO_SLEEP =>
      (s, [.persistCounter s.wakeup_count, .enterSleep sleep_seconds])
  | .INTERACTIVE_MODE =>
      if u32sub now s.last_interactive_activity ≥ INTERACTIVE_TIMEOUT_MS then
        ({ s with current_state := .READY_TO_SLEEP, state_start_time := now }, [])
      else (s, [])

/-- `LowPowerSensorMesh::handleCustomCommand` with the state pointer set
(as `setup()` does): given the current scheduler state, the sender
timestamp and the command text, returns the (possibly updated) state, the
reply written, and whether the command was consumed.  Commands not
consumed here are handled by the mesh layer, which does not touch the
scheduler state (its replies are opaque and modelled as `""`). -/
def handleCustomCommand (current : SensorNodeState) (sender_timestamp : Nat)
    (command : String) : SensorNodeState × String × Bool :=
  if sender_timestamp = 0 ∧ command = "exit" then
    if current = .INTERACTIVE_MODE then
      (.READY_TO_SLEEP, "Exiting interactive mode, going to sleep...", true)
    else
      (current, "Not in interactive mode", true)
  else (current, "", false)

/-- The command-handling tail of `loop()` for a completed console line
(sender timestamp 0): run `handleCommand` (whose custom part is
`handleCustomCommand`), then enter interactive mode unless the state is
already `INTERACTIVE_MODE` or `READY_TO_SLEEP`, then refresh
`last_interactive_activity` if the state is now `INTERACTIVE_MODE`.
Returns the updated state and the reply. -/
def commandPhase (s : SchedState) (now : Nat) (line : String) :
    SchedState × String :=
  let r := handleCustomCommand s.current_state 0 line
  let s1 := { s with current_state := r.1 }
  let s2 := if s1.current_state ≠ .INTERACTIVE_MODE ∧
               s1.current_state ≠ .READY_TO_SLEEP then
      { s1 with current_state := .INTERACTIVE_MODE, state_start_time := now }
    else s1
  let s3 := if s2.current_state = .INTERACTIVE_MODE then
      { s2 with last_interactive_activity := now }
    else s2
  (s3, r.2.1)

/-- One full `loop()` iteration: safety check, state-machine step, and —
when a completed console line is pending — the command phase. -/
def loopStep (s : SchedState) (now : Nat) (reading : ℚ)
    (wakeups_per_advert sleep_seconds : Nat) (line : Option String) :
    SchedState × List SchedAction × String :=
  let s0 := safetyCheck s now
  let r := stateStep s0 now reading wakeups_per_advert sleep_seconds
  match line with
  | none => (r.1, r.2, "")
  | some cmd =>
      let rc := commandPhase r.1 now cmd
      (rc.1, r.2, rc.2)

/-- The scheduler state right after `setup()` at boot time `t0` (with
`millis() = t0` when the state machine is initialised): `SAMPLING`, zero
samples, `last_sample_time = 0`, and the persisted wakeup counter
incremented.  `garbage` is the uninitialised content of the sample
array. -/
def bootState (t0 : Nat) (persisted : Nat) (garbage : Nat → ℚ) : SchedState :=
  { current_state := .SAMPLING
    state_start_time := t0
    awake_start_time := t0
    wakeup_count := persisted + 1
    last_interactive_activity := 0
    sensor_samples := garbage
    sample_count := 0
    last_sample_time := 0 }

/-- The scheduler state after `k` loop iterations from `bootState 1000`,
iteration `j` (0-based) happening at `millis() = 1000 * (j + 2)` with
reading `r j` and no console input. -/
def sampleRun (persisted : Nat) (garbage : Nat → ℚ) (r : Nat → ℚ)
    (wakeups_per_advert sleep_seconds : Nat) : Nat → SchedState
  | 0 => bootState 1000 persisted garbage
  | k + 1 =>
      (loopStep (sampleRun persisted garbage r wakeups_per_advert sleep_seconds k)
        (1000 * (k + 2)) (r k) wakeups_per_advert sleep_seconds none).1

/-- The actions of iteration `k` (0-based) of the same run. -/
def sampleRunActs (persisted : Nat) (garbage : Nat → ℚ) (r : Nat → ℚ)
    (wakeups_per_advert sleep_seconds : Nat) (k : Nat) : List SchedAction :=
  (loopStep (sampleRun persisted garbage r wakeups_per_advert sleep_seconds k)
    (1000 * (k + 2)) (r k) wakeups_per_advert sleep_seconds none).2.1

/-! ## Helper lemmas -/

/-- Masking first with `a` and then with `b` yields 0 whenever `a &&& b = 0`. -/
theorem and_and_eq_zero {a b : Nat} (s : Nat) (h : a &&& b = 0) : s &&& a &&& b = 0 := by
  rw [Nat.and_assoc, h, Nat.and_zero]

/-! ## Claim theorems -/

/-- C10: when the board's RTC wakeup object is null,
`RAK4631Board::enterLowPowerSleep` logs an error and returns to its caller
without arming any alarm, without powering down peripherals, and without
reaching the system-off halt. -/
theorem c10_null_rtc_sleep_returns :
    ∀ (setAlarmResult : Bool) (sleepSeconds : Nat),
      (enterLowPowerSleep false setAlarmResult sleepSeconds).outcome = .returns ∧
      (enterLowPowerSleep false setAlarmResult sleepSeconds).actions = [.logError] ∧
      SleepAction.systemOff ∉ (enterLowPowerSleep false setAlarmResult sleepSeconds).actions ∧
      SleepAction.powerDown ∉ (enterLowPowerSleep false setAlarmResult sleepSeconds).actions ∧
      ∀ n, SleepAction.setAlarmCall n ∉
        (enterLowPowerSleep false setAlarmResult sleepSeconds).actions := by
  intro setAlarmResult sleepSeconds
  refine ⟨rfl, rfl, ?_, ?_, ?_⟩ <;> simp [enterLowPowerSleep]

/-- C1 (code-bug evaluation): `RAK4631Board::enterLowPowerSleep` discards
the boolean result of `rtc_wakeup->setAlarm`; with the RTC object present
and `setAlarm` returning `false`, the call still powers down peripherals
and reaches the non-returning system-off halt, contrary to the spec's
"sleep is never entered if arming failed". -/
theorem c1_halt_reached_despite_setalarm_failure :
    (enterLowPowerSleep true false 3600).outcome = .halts ∧
    SleepAction.systemOff ∈ (enterLowPowerSleep true false 3600).actions ∧
    enterLowPowerSleep true false 3600 = enterLowPowerSleep true true 3600 := by
  refine ⟨rfl, ?_, rfl⟩
  simp [enterLowPowerSleep]

/-- C2 (code-bug evaluation): `RV3028Wakeup::setAlarm` always programs the
countdown timer at 1 Hz with the raw second count — for the delay 5000 s
(which exceeds 4095) it selects `Hz1` with 5000 ticks, whereas the
documented behaviour (`rv3028SetAlarmSpec`, matching `RV3028Wakeup.h` and
spec §4.3/§8) would select 1/60 Hz with `⌈5000/60⌉ = 84` ticks. -/
theorem c2_no_minute_resolution_fallback :
    (rv3028SetAlarm 5000).1.freq = .Hz1 ∧
    (rv3028SetAlarm 5000).1.ticks = 5000 ∧
    (rv3028SetAlarm 5000).2 = true ∧
    4095 < 5000 ∧
    rv3028SetAlarmSpec 5000 =
      { ticks := 84, freq := .Hz1_60, repeatTimer := false, interruptEnable := true } ∧
    (rv3028SetAlarm 5000).1.freq ≠ (rv3028SetAlarmSpec 5000).freq := by
  refine ⟨rfl, rfl, rfl, by norm_num, by decide, by decide⟩

/-- C6: for either backend, `checkWakeup` returns true exactly when its
wake flag is pending, and a second call on the resulting register state
(no new wake event in between) always returns false, because the first
call cleared the flag it reported. -/
theorem c6_second_checkwakeup_returns_false :
    ∀ status : Nat,
      ((ds3231CheckWakeup status).1 = true ↔ status &&& 0x01 ≠ 0) ∧
      (ds3231CheckWakeup (ds3231CheckWakeup status).2).1 = false ∧
      ((rv3028CheckWakeup status).1 = true ↔ status &&& TIMER_EVENT_FLAG ≠ 0) ∧
      (rv3028CheckWakeup (rv3028CheckWakeup status).2).1 = false := by
  intro status
  have hds : (0xFE : Nat) &&& 0x01 = 0 := by decide
  have hrv : (0xF7 : Nat) &&& TIMER_EVENT_FLAG = 0 := by decide
  refine ⟨?_, ?_, ?_, ?_⟩
  · by_cases h : status &&& 0x01 ≠ 0
    · have h1 : (ds3231CheckWakeup status).1 = true := by
        unfold ds3231CheckWakeup; rw [if_pos h]
      rw [h1]; exact iff_of_true rfl h
    · have h1 : (ds3231CheckWakeup status).1 = false := by
        unfold ds3231CheckWakeup; rw [if_neg h]
      rw [h1]; exact iff_of_false (by decide) h
  · by_cases h : status &&& 0x01 ≠ 0
    · have h2 : (ds3231CheckWakeup status).2 = status &&& 0xFE := by
        unfold ds3231CheckWakeup; rw [if_pos h]
      have h3 : ¬(status &&& 0xFE &&& 0x01 ≠ 0) :=
        fun hc => hc (and_and_eq_zero status hds)
      rw [h2]; unfold ds3231CheckWakeup; rw [if_neg h3]
    · have h2 : (ds3231CheckWakeup status).2 = status := by
        unfold ds3231CheckWakeup; rw [if_neg h]
      rw [h2]; unfold ds3231CheckWakeup; rw [if_neg h]
  · by_cases h : status &&& TIMER_EVENT_FLAG ≠ 0
    · have h1 : (rv3028CheckWakeup status).1 = true := by
        unfold rv3028CheckWakeup; rw [if_pos h]
      rw [h1]; exact iff_of_true rfl h
    · have h1 : (rv3028CheckWakeup status).1 = false := by
        unfold rv3028CheckWakeup; rw [if_neg h]
      rw [h1]; exact iff_of_false (by decide) h
  · by_cases h : status &&& TIMER_EVENT_FLAG ≠ 0
    · have h2 : (rv3028CheckWakeup status).2 = status &&& 0xF7 := by
        unfold rv3028CheckWakeup; rw [if_pos h]
      have h3 : ¬(status &&& 0xF7 &&& TIMER_EVENT_FLAG ≠ 0) :=
        fun hc => hc (and_and_eq_zero status hrv)
      rw [h2]; unfold rv3028CheckWakeup; rw [if_neg h3]
    · have h2 : (rv3028CheckWakeup status).2 = status := by
        unfold rv3028CheckWakeup; rw [if_neg h]
      rw [h2]; unfold rv3028CheckWakeup; rw [if_neg h]

/-- C8: when `checkWakeup` finds its wake flag set, the status value it
writes back differs from the value read in exactly the one wake-flag bit
(bit 0, A1F, for the DS3231; bit 3, TF, for the RV-3028): that bit reads
back clear and every other bit of the 8-bit register is preserved. -/
theorem c8_writeback_clears_only_wake_flag (status i : Nat) (hs : status < 256) :
    (status &&& 0x01 ≠ 0 →
      Nat.testBit (ds3231CheckWakeup status).2 i =
        (if i = 0 then false else Nat.testBit status i)) ∧
    (status &&& TIMER_EVENT_FLAG ≠ 0 →
      Nat.testBit (rv3028CheckWakeup status).2 i =
        (if i = 3 then false else Nat.testBit status i)) := by
  have hhi : 8 ≤ i → Nat.testBit status i = false := by
    intro h8
    have h2 : (256 : Nat) ≤ 2 ^ i :=
      calc (256 : Nat) = 2 ^ 8 := by norm_num
        _ ≤ 2 ^ i := Nat.pow_le_pow_right (by norm_num) h8
    exact Nat.testBit_lt_two_pow (lt_of_lt_of_le hs h2)
  constructor
  · intro h
    have h2 : (ds3231CheckWakeup status).2 = status &&& 0xFE := by
      unfold ds3231CheckWakeup; rw [if_pos h]
    rw [h2, Nat.testBit_and]
    rcases lt_or_ge i 8 with hi | hi
    · rcases (status.testBit i).eq_false_or_eq_true with hb | hb <;>
        rw [hb] <;> interval_cases i <;> decide
    · rw [hhi hi]
      simp [show i ≠ 0 by omega]
  · intro h
    have h2 : (rv3028CheckWakeup status).2 = status &&& 0xF7 := by
      unfold rv3028CheckWakeup; rw [if_pos h]
    rw [h2, Nat.testBit_and]
    rcases lt_or_ge i 8 with hi | hi
    · rcases (status.testBit i).eq_false_or_eq_true with hb | hb <;>
        rw [hb] <;> interval_cases i <;> decide
    · rw [hhi hi]
      simp [show i ≠ 3 by omega]

/-- C8 witness: at status `0xFF` with both flags set, bit 1 is preserved
by the DS3231 write-back and bit 2 by the RV-3028 write-back. -/
theorem c8_witness :
    Nat.testBit (ds3231CheckWakeup 0xFF).2 1 = true ∧
    Nat.testBit (rv3028CheckWakeup 0xFF).2 2 = true := by
  constructor
  · have h := (c8_writeback_clears_only_wake_flag 0xFF 1 (by norm_num)).1 (by decide)
    rw [h]; decide
  · have h := (c8_writeback_clears_only_wake_flag 0xFF 2 (by norm_num)).2 (by decide)
    rw [h]; decide

/-- BCD encodings of values below 60 are two-digit BCD bytes, so their
top bit (the DS3231 A1Mx "ignore" bit) is clear. -/
theorem decToBcd_and_msb {w : Nat} (hw : w < 60) : decToBcd w &&& 0x80 = 0 := by
  interval_cases w <;> decide

/-- Shape of the target fields computed by `ds3231SetAlarm`: with
`k = ⌈seconds/60⌉` the target minute is `(min + k) % 60`, the target hour
is `(hour + (min + k) / 60) % 24`, and hour matching is enabled exactly
when `k ≥ 60`. -/
theorem ds3231_wake_fields (d s m h day : Nat) (hm : m < 60) (hh : h < 24) :
    (ds3231SetAlarm d s m h day).wakeMin = (m + (d + 59) / 60) % 60 ∧
    (ds3231SetAlarm d s m h day).wakeHour = (h + (m + (d + 59) / 60) / 60) % 24 ∧
    ((ds3231SetAlarm d s m h day).useHours = true ↔ 60 ≤ (d + 59) / 60) := by
  refine ⟨?_, ?_, ?_⟩
  · simp only [ds3231SetAlarm]
    split_ifs <;> omega
  · simp only [ds3231SetAlarm]
    split_ifs <;> omega
  · simp only [ds3231SetAlarm]
    exact decide_eq_true_iff

/-- C9: for every delay passed to `DS3231Wakeup::setAlarm`, the minute
alarm register is always written as a value match (A1M2 = 0, top bit
clear), the hour register carries a value match (top bit clear) exactly
when the delay rounded up to whole minutes is at least 60 minutes and is
the ignore byte `0x80` otherwise, and the day/date register is always the
ignore byte `0x80` (A1M4 = 1, day matching disabled). -/
theorem c9_alarm_register_matching (d s m h day : Nat) (hm : m < 60) (hh : h < 24) :
    (ds3231SetAlarm d s m h day).minReg = decToBcd ((ds3231SetAlarm d s m h day).wakeMin) ∧
    (ds3231SetAlarm d s m h day).minReg &&& 0x80 = 0 ∧
    ((ds3231SetAlarm d s m h day).hourReg &&& 0x80 = 0 ↔ 60 ≤ (d + 59) / 60) ∧
    ((ds3231SetAlarm d s m h day).hourReg =
      if 60 ≤ (d + 59) / 60 then decToBcd ((ds3231SetAlarm d s m h day).wakeHour)
      else 0x80) ∧
    (ds3231SetAlarm d s m h day).dayReg = 0x80 ∧
    (ds3231SetAlarm d s m h day).dayReg &&& 0x80 ≠ 0 := by
  obtain ⟨hwm, hwh, huse⟩ := ds3231_wake_fields d s m h day hm hh
  have hwm60 : (ds3231SetAlarm d s m h day).wakeMin < 60 := by rw [hwm]; omega
  have hwh24 : (ds3231SetAlarm d s m h day).wakeHour < 24 := by rw [hwh]; omega
  have hmin : (ds3231SetAlarm d s m h day).minReg =
      decToBcd ((ds3231SetAlarm d s m h day).wakeMin) := rfl
  have hhour : (ds3231SetAlarm d s m h day).hourReg =
      if 60 ≤ (d + 59) / 60 then decToBcd ((ds3231SetAlarm d s m h day).wakeHour)
      else 0x80 := by
    by_cases hk : 60 ≤ (d + 59) / 60
    · rw [if_pos hk]
      have hu : (ds3231SetAlarm d s m h day).useHours = true := huse.mpr hk
      simp only [ds3231SetAlarm] at hu ⊢
      rw [if_pos hu]
    · rw [if_neg hk]
      have hu : ¬((ds3231SetAlarm d s m h day).useHours = true) := fun hc => hk (huse.mp hc)
      simp only [ds3231SetAlarm] at hu ⊢
      rw [if_neg hu]
  refine ⟨hmin, ?_, ?_, hhour, rfl, ?_⟩
  · rw [hmin]; exact decToBcd_and_msb hwm60
  · rw [hhour]
    by_cases hk : 60 ≤ (d + 59) / 60
    · rw [if_pos hk]
      exact iff_of_true (decToBcd_and_msb (lt_trans hwh24 (by norm_num))) hk
    · rw [if_neg hk]
      exact iff_of_false (by decide) hk
  · simp only [ds3231SetAlarm]
    decide

/-- C9 witness: a two-hour delay from 00:00 (minute always matched, hour
matched since 120 minutes ≥ 60, day ignored). -/
theorem c9_witness :
    (ds3231SetAlarm 7200 0 0 0 1).minReg &&& 0x80 = 0 ∧
    ((ds3231SetAlarm 7200 0 0 0 1).hourReg &&& 0x80 = 0 ↔ 60 ≤ (7200 + 59) / 60) ∧
    (ds3231SetAlarm 7200 0 0 0 1).dayReg = 0x80 := by
  have h := c9_alarm_register_matching 7200 0 0 0 1 (by norm_num) (by norm_num)
  exact ⟨h.2.1, h.2.2.1, h.2.2.2.2.1⟩

/-! ### Clock-semantics lemmas for the DS3231 alarm -/

/-- Position within the hour of a valid clock state. -/
theorem toLinear_mod_3600 (c : RTCTime) (hc : c.Valid) :
    c.toLinear % 3600 = c.min * 60 + c.sec := by
  obtain ⟨h1, h2, h3, h4, h5⟩ := hc
  unfold RTCTime.toLinear
  omega

/-- Position within the day of a valid clock state. -/
theorem toLinear_mod_86400 (c : RTCTime) (hc : c.Valid) :
    c.toLinear % 86400 = c.hour * 3600 + c.min * 60 + c.sec := by
  obtain ⟨h1, h2, h3, h4, h5⟩ := hc
  unfold RTCTime.toLinear
  omega

/-- With hour matching off, the alarm matches a clock state exactly when
its position within the hour is second 0 of the target minute. -/
theorem matches_ofLinear_short (a : DS3231Alarm) (hmin : a.wakeMin < 60)
    (hu : a.useHours = false) (T : Nat) :
    (alarmMatches a (RTCTime.ofLinear T) = true) ↔ T % 3600 = a.wakeMin * 60 := by
  simp only [alarmMatches, RTCTime.ofLinear, hu, Bool.not_false, Bool.true_or,
    Bool.and_true, Bool.and_eq_true, beq_iff_eq]
  omega

/-- With hour matching on, the alarm matches a clock state exactly when
its position within the day is second 0 of the target hour:minute. -/
theorem matches_ofLinear_long (a : DS3231Alarm) (hmin : a.wakeMin < 60)
    (hhour : a.wakeHour < 24) (hu : a.useHours = true) (T : Nat) :
    (alarmMatches a (RTCTime.ofLinear T) = true) ↔
      T % 86400 = a.wakeHour * 3600 + a.wakeMin * 60 := by
  simp only [alarmMatches, RTCTime.ofLinear, hu, Bool.not_true, Bool.false_or,
    Bool.and_eq_true, beq_iff_eq]
  omega

/-- `fireDelay` is exactly the first time (at least one second from now)
at which the programmed alarm condition holds: the alarm matches the
clock `fireDelay` seconds from now, and matches at no earlier positive
time. -/
theorem fireDelay_first (a : DS3231Alarm) (c : RTCTime) (hc : c.Valid)
    (hmin : a.wakeMin < 60) (hhour : a.wakeHour < 24) :
    alarmMatches a (c.advance (fireDelay a c)) = true ∧
    ∀ t, 1 ≤ t → t < fireDelay a c → alarmMatches a (c.advance t) = false := by
  have hT : c.toLinear < 604800 := by
    obtain ⟨h1, h2, h3, h4, h5⟩ := hc
    unfold RTCTime.toLinear
    omega
  cases hu : a.useHours
  · -- hour matching off: period 3600
    have key : ∀ t, (alarmMatches a (c.advance t) = true) ↔
        (c.toLinear + t) % 3600 = a.wakeMin * 60 := by
      intro t
      unfold RTCTime.advance
      rw [matches_ofLinear_short a hmin hu]
      rw [Nat.mod_mod_of_dvd _ (by norm_num : (3600 : ℕ) ∣ 604800)]
    have hfd : fireDelay a c =
        (a.wakeMin * 60 + 3600 - c.toLinear % 3600 - 1) % 3600 + 1 := by
      unfold fireDelay
      rw [hu]
      simp
    constructor
    · rw [key, hfd]
      omega
    · intro t h1 h2
      rw [hfd] at h2
      rcases (alarmMatches a (c.advance t)).eq_false_or_eq_true with hb | hb
      · exfalso
        have h3 := (key t).mp hb
        omega
      · exact hb
  · -- hour matching on: period 86400
    have key : ∀ t, (alarmMatches a (c.advance t) = true) ↔
        (c.toLinear + t) % 86400 = a.wakeHour * 3600 + a.wakeMin * 60 := by
      intro t
      unfold RTCTime.advance
      rw [matches_ofLinear_long a hmin hhour hu]
      rw [Nat.mod_mod_of_dvd _ (by norm_num : (86400 : ℕ) ∣ 604800)]
    have hfd : fireDelay a c =
        (a.wakeHour * 3600 + a.wakeMin * 60 + 86400 - c.toLinear % 86400 - 1) % 86400 + 1 := by
      unfold fireDelay
      rw [hu]
      simp
    constructor
    · rw [key, hfd]
      omega
    · intro t h1 h2
      rw [hfd] at h2
      rcases (alarmMatches a (c.advance t)).eq_false_or_eq_true with hb | hb
      · exfalso
        have h3 := (key t).mp hb
        omega
      · exact hb

/-- C3 (amended): for every delay `0 ≤ d ≤ 65535` (the full interface
range) and valid current time, the alarm programmed by
`DS3231Wakeup::setAlarm` first fires exactly `⌈d/60⌉·60 − sec` seconds
from now when `d ≥ 1` (where `sec` is the current seconds value the code
reads but ignores), and `3600 − sec` seconds from now when `d = 0` (the
code then targets the *current* minute, whose next second-zero match is
an hour away).  For `d ≥ 1` the wake under-estimates `d` by at most the
current seconds value (strictly less than one minute), over-estimates `d`
by at most 59 seconds, and never under-estimates when the current seconds
read zero; for `d = 0` the wake over-shoots the requested delay by
3541–3600 seconds — up to a full hour. -/
theorem c3_fire_delay_bounds (d : Nat) (c : RTCTime) (hd2 : d ≤ 65535)
    (hc : c.Valid) :
    fireDelay (ds3231SetAlarm d c.sec c.min c.hour c.day) c =
      (if d = 0 then 3600 else ((d + 59) / 60) * 60) - c.sec ∧
    alarmMatches (ds3231SetAlarm d c.sec c.min c.hour c.day)
      (c.advance (fireDelay (ds3231SetAlarm d c.sec c.min c.hour c.day) c)) = true ∧
    (1 ≤ d →
      d < fireDelay (ds3231SetAlarm d c.sec c.min c.hour c.day) c + 60 ∧
      fireDelay (ds3231SetAlarm d c.sec c.min c.hour c.day) c ≤ d + 59) ∧
    (c.sec = 0 → d ≤ fireDelay (ds3231SetAlarm d c.sec c.min c.hour c.day) c) ∧
    (d = 0 →
      3541 ≤ fireDelay (ds3231SetAlarm d c.sec c.min c.hour c.day) c ∧
      fireDelay (ds3231SetAlarm d c.sec c.min c.hour c.day) c ≤ 3600) := by
  obtain ⟨hs, hm, hh, hd4, hd5⟩ := hc
  obtain ⟨hwm, hwh, huse⟩ := ds3231_wake_fields d c.sec c.min c.hour c.day hm hh
  have hwm60 : (ds3231SetAlarm d c.sec c.min c.hour c.day).wakeMin < 60 := by rw [hwm]; omega
  have hwh24 : (ds3231SetAlarm d c.sec c.min c.hour c.day).wakeHour < 24 := by rw [hwh]; omega
  have hk2 : (d + 59) / 60 ≤ 1093 := by omega
  have hmain : fireDelay (ds3231SetAlarm d c.sec c.min c.hour c.day) c =
      (if d = 0 then 3600 else ((d + 59) / 60) * 60) - c.sec := by
    by_cases hk : 60 ≤ (d + 59) / 60
    · have hd0 : ¬(d = 0) := by omega
      rw [if_neg hd0]
      have hu : (ds3231SetAlarm d c.sec c.min c.hour c.day).useHours = true := huse.mpr hk
      unfold fireDelay
      rw [hu]
      simp only [if_pos rfl, if_true]
      rw [toLinear_mod_86400 c ⟨hs, hm, hh, hd4, hd5⟩, hwm, hwh]
      omega
    · have hu : (ds3231SetAlarm d c.sec c.min c.hour c.day).useHours = false :=
        Bool.not_eq_true _ ▸ (fun hc' => hk (huse.mp hc') : ¬_ = true)
      unfold fireDelay
      rw [hu]
      simp only [Bool.false_eq_true, if_false]
      rw [toLinear_mod_3600 c ⟨hs, hm, hh, hd4, hd5⟩, hwm]
      have hklt : (d + 59) / 60 < 60 := by omega
      split_ifs with hd0 <;> omega
  have hfire := fireDelay_first (ds3231SetAlarm d c.sec c.min c.hour c.day) c
    ⟨hs, hm, hh, hd4, hd5⟩ hwm60 hwh24
  refine ⟨hmain, hfire.1, ?_, ?_, ?_⟩
  · intro hd1
    have hd0 : ¬(d = 0) := by omega
    rw [hmain, if_neg hd0]
    constructor <;> omega
  · intro h0
    rw [hmain, h0]
    split_ifs with hd0 <;> omega
  · intro hd0
    rw [hmain, if_pos hd0]
    constructor <;> omega

/-- C3 counterexample: requesting a 60-second delay at RTC time
day 1, 00:00:30 programs an alarm that first fires after only 30 seconds
(the alarm matches 30 seconds from now), strictly less than the requested
delay — refuting "never under-estimates". -/
theorem c3_counterexample :
    fireDelay (ds3231SetAlarm 60 30 0 0 1) ⟨30, 0, 0, 1⟩ = 30 ∧
    alarmMatches (ds3231SetAlarm 60 30 0 0 1)
      (RTCTime.advance ⟨30, 0, 0, 1⟩ 30) = true ∧
    30 < 60 := by
  refine ⟨?_, ?_, by norm_num⟩ <;> decide

/-- C3 witness: a 120-second delay requested at day 1, 00:00:00 fires
exactly 120 seconds later, and a 0-second delay requested at day 1,
00:00:30 fires only 3570 seconds later (the current-minute match). -/
theorem c3_witness :
    fireDelay (ds3231SetAlarm 120 0 0 0 1) (RTCTime.mk 0 0 0 1) = 120 ∧
    fireDelay (ds3231SetAlarm 0 30 0 0 1) (RTCTime.mk 30 0 0 1) = 3570 := by
  constructor
  · have h := (c3_fire_delay_bounds 120 (RTCTime.mk 0 0 0 1) (by norm_num)
      ⟨by norm_num, by norm_num, by norm_num, by norm_num, by norm_num⟩).1
    norm_num at h
    exact h
  · have h := (c3_fire_delay_bounds 0 (RTCTime.mk 30 0 0 1) (by norm_num)
      ⟨by norm_num, by norm_num, by norm_num, by norm_num, by norm_num⟩).1
    norm_num at h
    exact h

/-! ### Scheduler theorems -/

/-- C4 (amended): receiving any console command (sender timestamp 0) while
the scheduler is in `SAMPLING` moves the state to `INTERACTIVE_MODE`;
receiving "exit" while in `INTERACTIVE_MODE` moves the state to
`READY_TO_SLEEP` with exactly the reply "Exiting interactive mode, going
to sleep..."; receiving "exit" in any other state produces exactly the
reply "Not in interactive mode" — the handler itself does not transition,
but the command-receipt logic of `loop()` then moves every such state
except `READY_TO_SLEEP` to `INTERACTIVE_MODE` (only from `READY_TO_SLEEP`
is there no transition). -/
theorem c4_exit_command_transitions (s : SchedState) (now : Nat) (line : String) :
    (s.current_state = .SAMPLING →
      (commandPhase s now line).1.current_state = .INTERACTIVE_MODE) ∧
    (s.current_state = .INTERACTIVE_MODE →
      (commandPhase s now "exit").1.current_state = .READY_TO_SLEEP ∧
      (commandPhase s now "exit").2 = "Exiting interactive mode, going to sleep...") ∧
    (s.current_state ≠ .INTERACTIVE_MODE →
      (commandPhase s now "exit").2 = "Not in interactive mode" ∧
      (commandPhase s now "exit").1.current_state =
        (if s.current_state = .READY_TO_SLEEP then .READY_TO_SLEEP
         else .INTERACTIVE_MODE)) := by
  refine ⟨?_, ?_, ?_⟩
  · intro h1
    by_cases hl : line = "exit"
    · simp [commandPhase, handleCustomCommand, h1, hl]
    · simp [commandPhase, handleCustomCommand, h1, hl]
  · intro h2
    constructor <;> simp [commandPhase, handleCustomCommand, h2]
  · intro h3
    cases hcs : s.current_state with
    | INTERACTIVE_MODE => exact absurd hcs h3
    | SAMPLING => constructor <;> simp [commandPhase, handleCustomCommand, hcs]
    | PROCESSING => constructor <;> simp [commandPhase, handleCustomCommand, hcs]
    | ADVERTISING => constructor <;> simp [commandPhase, handleCustomCommand, hcs]
    | READY_TO_SLEEP => constructor <;> simp [commandPhase, handleCustomCommand, hcs]

/-- C4 witness: from `INTERACTIVE_MODE`, "exit" transitions to
`READY_TO_SLEEP` with the exact exit reply. -/
theorem c4_witness :
    (commandPhase { bootState 1000 0 (fun _ => 0) with
        current_state := .INTERACTIVE_MODE } 2000 "exit").1.current_state =
      SensorNodeState.READY_TO_SLEEP ∧
    (commandPhase { bootState 1000 0 (fun _ => 0) with
        current_state := .INTERACTIVE_MODE } 2000 "exit").2 =
      "Exiting interactive mode, going to sleep..." :=
  (c4_exit_command_transitions
    { bootState 1000 0 (fun _ => 0) with current_state := .INTERACTIVE_MODE }
    2000 "exit").2.1 rfl

/-- C4 counterexample: "exit" received from the local console while in
`SAMPLING` produces the reply "Not in interactive mode" but does cause a
state transition — the post-command state is `INTERACTIVE_MODE`, not
`SAMPLING` — refuting "causes no state transition". -/
theorem c4_counterexample :
    (bootState 1000 0 (fun _ => 0)).current_state = .SAMPLING ∧
    (commandPhase (bootState 1000 0 (fun _ => 0)) 2000 "exit").2 =
      "Not in interactive mode" ∧
    (commandPhase (bootState 1000 0 (fun _ => 0)) 2000 "exit").1.current_state =
      .INTERACTIVE_MODE ∧
    SensorNodeState.INTERACTIVE_MODE ≠ .SAMPLING := by
  refine ⟨rfl, ?_, ?_, by decide⟩ <;>
    simp [commandPhase, handleCustomCommand, bootState]

/-- C7: on every `loop()` iteration in a state other than
`INTERACTIVE_MODE`, if the rollover-safe elapsed time since boot is at
least `MAX_AWAKE_TIME_MS`, the safety check forces the state to
`READY_TO_SLEEP` regardless of the current state, and the iteration then
runs the sleep path (persist + sleep entry); in `INTERACTIVE_MODE` the
ceiling check is suppressed and the safety check changes nothing. -/
theorem c7_max_awake_forces_sleep (s : SchedState) (now : Nat) (reading : ℚ)
    (wpa slp : Nat) :
    (s.current_state ≠ .INTERACTIVE_MODE →
      MAX_AWAKE_TIME_MS ≤ u32sub now s.awake_start_time →
      (safetyCheck s now).current_state = .READY_TO_SLEEP ∧
      (loopStep s now reading wpa slp none).1.current_state = .READY_TO_SLEEP ∧
      SchedAction.enterSleep slp ∈ (loopStep s now reading wpa slp none).2.1) ∧
    (s.current_state = .INTERACTIVE_MODE → safetyCheck s now = s) := by
  constructor
  · intro h1 h2
    have hs : safetyCheck s now = { s with current_state := .READY_TO_SLEEP } := by
      unfold safetyCheck
      rw [if_pos ⟨h1, h2⟩]
    refine ⟨by rw [hs], ?_, ?_⟩ <;>
      simp [loopStep, hs, stateStep]
  · intro h2
    unfold safetyCheck
    rw [if_neg]
    rintro ⟨hc, -⟩
    exact hc h2

/-- C7 witness: from boot at `millis() = 0`, an iteration at
`millis() = 300000` (the five-minute ceiling) in `SAMPLING` is forced to
`READY_TO_SLEEP` and reaches the sleep-entry action. -/
theorem c7_witness :
    (safetyCheck (bootState 0 0 (fun _ => 0)) 300000).current_state =
      SensorNodeState.READY_TO_SLEEP ∧
    SchedAction.enterSleep 3600 ∈
      (loopStep (bootState 0 0 (fun _ => 0)) 300000 0 5 3600 none).2.1 :=
  have h := (c7_max_awake_forces_sleep (bootState 0 0 (fun _ => 0)) 300000 0 5 3600).1
    (by decide) (by decide)
  ⟨h.1, h.2.2⟩

/-! ### Step lemmas for the sampling run -/

/-- `uint32` wrap-around subtraction agrees with ordinary subtraction when
no wrap occurs. -/
theorem u32sub_of_le {a b : Nat} (hba : b ≤ a) (h : a - b < 2 ^ 32) :
    u32sub a b = a - b := by
  unfold u32sub
  have h1 : a + 2 ^ 32 - b = (a - b) + 2 ^ 32 := by omega
  rw [h1, Nat.add_mod_right, Nat.mod_eq_of_lt h]

/-- The safety check leaves the state unchanged when its condition fails. -/
theorem safetyCheck_noop (s : SchedState) (now : Nat)
    (h : ¬(s.current_state ≠ .INTERACTIVE_MODE ∧
           u32sub now s.awake_start_time ≥ MAX_AWAKE_TIME_MS)) :
    safetyCheck s now = s := by
  unfold safetyCheck
  rw [if_neg h]

/-- In `SAMPLING` with the sample interval elapsed, one step appends
exactly one reading (written at index `sample_count`), bumps the count,
refreshes `last_sample_time`, and transitions to `PROCESSING` exactly when
the buffer has become full. -/
theorem stateStep_sampling_take (s : SchedState) (now : Nat) (reading : ℚ)
    (wpa slp : Nat) (hcs : s.current_state = .SAMPLING)
    (hel : u32sub now s.last_sample_time ≥ SAMPLE_INTERVAL_MS) :
    stateStep s now reading wpa slp =
      (if s.sample_count + 1 ≥ NUM_SAMPLES then
        { s with current_state := .PROCESSING,
                 state_start_time := now,
                 sensor_samples := fun j =>
                   if j = s.sample_count then reading else s.sensor_samples j,
                 sample_count := s.sample_count + 1,
                 last_sample_time := now }
      else
        { s with sensor_samples := fun j =>
                   if j = s.sample_count then reading else s.sensor_samples j,
                 sample_count := s.sample_count + 1,
                 last_sample_time := now },
       [.takeSample reading]) := by
  obtain ⟨cs, sst, ast, wc, lia, ss, sc, lst⟩ := s
  simp only at hcs hel
  subst hcs
  simp only [stateStep]
  rw [if_pos hel]
  split_ifs <;> rfl

/-- In `PROCESSING`, one step logs the average of the filled prefix of
the sample buffer, broadcasts a telemetry packet carrying the fresh
battery reading, and moves to `ADVERTISING` or `READY_TO_SLEEP`
depending on the wakeup counter; the sample count is left unchanged. -/
theorem stateStep_processing (s : SchedState) (now : Nat) (reading : ℚ)
    (wpa slp : Nat) (hcs : s.current_state = .PROCESSING) :
    stateStep s now reading wpa slp =
      (if s.wakeup_count ≥ wpa then
        { s with wakeup_count := 0, current_state := .ADVERTISING,
                 state_start_time := now }
      else
        { s with current_state := .READY_TO_SLEEP, state_start_time := now },
       [.logAverage ((∑ i ∈ Finset.range s.sample_count, s.sensor_samples i) /
          (s.sample_count : ℚ)),
        .broadcastTelemetry reading]) := by
  obtain ⟨cs, sst, ast, wc, lia, ss, sc, lst⟩ := s
  simp only at hcs
  subst hcs
  simp only [stateStep]
  split_ifs <;> rfl

/-- The scheduler state reached after `k ≤ 10` iterations of the 1-second
sampling run. -/
def runState (p : Nat) (g r : Nat → ℚ) (k : Nat) : SchedState :=
  { current_state := if k < 10 then .SAMPLING else .PROCESSING
    state_start_time := if k < 10 then 1000 else 11000
    awake_start_time := 1000
    wakeup_count := p + 1
    last_interactive_activity := 0
    sensor_samples := fun i => if i < k then r i else g i
    sample_count := k
    last_sample_time := if k = 0 then 0 else 1000 * (k + 1) }

/-- Explicit description of the sampling run: after `k ≤ 10` iterations
the scheduler is exactly `runState p g r k`. -/
theorem sampleRun_eq (p : Nat) (g r : Nat → ℚ) (wpa slp : Nat) :
    ∀ k, k ≤ 10 → sampleRun p g r wpa slp k = runState p g r k := by
  have hpow : (2 : Nat) ^ 32 = 4294967296 := by norm_num
  intro k
  induction k with
  | zero =>
      intro _
      show bootState 1000 p g = _
      unfold bootState runState
      norm_num
  | succ k ih =>
      intro hk
      have hk10 : k < 10 := by omega
      have hrw : sampleRun p g r wpa slp (k + 1) =
          (loopStep (sampleRun p g r wpa slp k) (1000 * (k + 2)) (r k) wpa slp none).1 := rfl
      rw [hrw, ih (by omega)]
      have h1 : safetyCheck (runState p g r k) (1000 * (k + 2)) = runState p g r k := by
        apply safetyCheck_noop
        rintro ⟨-, h2⟩
        have ha : (runState p g r k).awake_start_time = 1000 := rfl
        have hu : u32sub (1000 * (k + 2)) 1000 = 1000 * (k + 2) - 1000 :=
          u32sub_of_le (by omega) (by rw [hpow]; omega)
        rw [ha, hu] at h2
        unfold MAX_AWAKE_TIME_MS at h2
        omega
      have hcs : (runState p g r k).current_state = .SAMPLING := by
        unfold runState
        simp only [if_pos hk10]
      have hel : u32sub (1000 * (k + 2)) (runState p g r k).last_sample_time ≥
          SAMPLE_INTERVAL_MS := by
        have hl : (runState p g r k).last_sample_time =
            if k = 0 then 0 else 1000 * (k + 1) := rfl
        rw [hl]
        by_cases hk0 : k = 0
        · have hu : u32sub (1000 * (k + 2)) 0 = 1000 * (k + 2) - 0 :=
            u32sub_of_le (by omega) (by rw [hpow]; omega)
          rw [if_pos hk0, hu]
          unfold SAMPLE_INTERVAL_MS
          omega
        · have hu : u32sub (1000 * (k + 2)) (1000 * (k + 1)) =
              1000 * (k + 2) - 1000 * (k + 1) :=
            u32sub_of_le (by omega) (by rw [hpow]; omega)
          rw [if_neg hk0, hu]
          unfold SAMPLE_INTERVAL_MS
          omega
      have h2 := stateStep_sampling_take (runState p g r k) (1000 * (k + 2)) (r k)
        wpa slp hcs hel
      simp only [loopStep, h1, h2]
      have hsc : (runState p g r k).sample_count = k := rfl
      rw [hsc]
      by_cases hk9 : k + 1 ≥ NUM_SAMPLES
      · rw [if_pos hk9]
        have hk9' : k = 9 := by
          unfold NUM_SAMPLES at hk9
          omega
        subst hk9'
        unfold runState
        ext j
        · norm_num
        · norm_num
        · rfl
        · rfl
        · rfl
        · show (if j = 9 then r 9 else if j < 9 then r j else g j) =
            if j < 10 then r j else g j
          rcases eq_or_ne j 9 with rfl | hne
          · norm_num
          · rw [if_neg hne]
            split_ifs <;> first | rfl | omega
        · rfl
        · norm_num
      · rw [if_neg hk9]
        have hk9' : k + 1 < 10 := by
          unfold NUM_SAMPLES at hk9
          omega
        unfold runState
        ext j
        · simp only [if_pos hk10, if_pos hk9']
        · simp only [if_pos hk10, if_pos hk9']
        · rfl
        · rfl
        · rfl
        · show (if j = k then r k else if j < k then r j else g j) =
            if j < k + 1 then r j else g j
          rcases eq_or_ne j k with rfl | hne
          · simp
          · rw [if_neg hne]
            split_ifs <;> first | rfl | omega
        · rfl
        · rw [if_neg (Nat.succ_ne_zero k)]

/-- Iteration `k < 10` of the sampling run performs exactly one sampling
action. -/
theorem sampleRunActs_take (p : Nat) (g r : Nat → ℚ) (wpa slp : Nat) :
    ∀ k, k < 10 → sampleRunActs p g r wpa slp k = [.takeSample (r k)] := by
  have hpow : (2 : Nat) ^ 32 = 4294967296 := by norm_num
  intro k hk10
  unfold sampleRunActs
  rw [sampleRun_eq p g r wpa slp k (by omega)]
  have h1 : safetyCheck (runState p g r k) (1000 * (k + 2)) = runState p g r k := by
    apply safetyCheck_noop
    rintro ⟨-, h2⟩
    have ha : (runState p g r k).awake_start_time = 1000 := rfl
    have hu : u32sub (1000 * (k + 2)) 1000 = 1000 * (k + 2) - 1000 :=
      u32sub_of_le (by omega) (by rw [hpow]; omega)
    rw [ha, hu] at h2
    unfold MAX_AWAKE_TIME_MS at h2
    omega
  have hcs : (runState p g r k).current_state = .SAMPLING := by
    unfold runState
    simp only [if_pos hk10]
  have hel : u32sub (1000 * (k + 2)) (runState p g r k).last_sample_time ≥
      SAMPLE_INTERVAL_MS := by
    have hl : (runState p g r k).last_sample_time =
        if k = 0 then 0 else 1000 * (k + 1) := rfl
    rw [hl]
    by_cases hk0 : k = 0
    · have hu : u32sub (1000 * (k + 2)) 0 = 1000 * (k + 2) - 0 :=
        u32sub_of_le (by omega) (by rw [hpow]; omega)
      rw [if_pos hk0, hu]
      unfold SAMPLE_INTERVAL_MS
      omega
    · have hu : u32sub (1000 * (k + 2)) (1000 * (k + 1)) =
          1000 * (k + 2) - 1000 * (k + 1) :=
        u32sub_of_le (by omega) (by rw [hpow]; omega)
      rw [if_neg hk0, hu]
      unfold SAMPLE_INTERVAL_MS
      omega
  have h2 := stateStep_sampling_take (runState p g r k) (1000 * (k + 2)) (r k)
    wpa slp hcs hel
  simp only [loopStep, h1, h2]

/-- Iteration 10 of the sampling run (the `PROCESSING` step): it logs the
average of exactly the ten collected readings, broadcasts a telemetry
packet with the iteration's fresh battery reading, performs no other
action, and the sample count afterwards is still 10 — it is not reset. -/
theorem sampleRun_processing_step (p : Nat) (g r : Nat → ℚ) (wpa slp : Nat) :
    sampleRunActs p g r wpa slp 10 =
      [.logAverage ((∑ i ∈ Finset.range 10, r i) / 10),
       .broadcastTelemetry (r 10)] ∧
    (sampleRun p g r wpa slp 11).sample_count = 10 ∧
    ((sampleRun p g r wpa slp 11).current_state = .ADVERTISING ∨
      (sampleRun p g r wpa slp 11).current_state = .READY_TO_SLEEP) := by
  have hpow : (2 : Nat) ^ 32 = 4294967296 := by norm_num
  have heq := sampleRun_eq p g r wpa slp 10 le_rfl
  have h1 : safetyCheck (runState p g r 10) (1000 * (10 + 2)) = runState p g r 10 := by
    apply safetyCheck_noop
    rintro ⟨-, h2⟩
    have ha : (runState p g r 10).awake_start_time = 1000 := rfl
    have hu : u32sub (1000 * (10 + 2)) 1000 = 1000 * (10 + 2) - 1000 :=
      u32sub_of_le (by omega) (by rw [hpow]; omega)
    rw [ha, hu] at h2
    unfold MAX_AWAKE_TIME_MS at h2
    omega
  have hcs : (runState p g r 10).current_state = .PROCESSING := by
    unfold runState
    norm_num
  have h2 := stateStep_processing (runState p g r 10) (1000 * (10 + 2)) (r 10)
    wpa slp hcs
  have hsum : (∑ i ∈ Finset.range 10, (runState p g r 10).sensor_samples i) =
      ∑ i ∈ Finset.range 10, r i :=
    Finset.sum_congr rfl (fun i hi => by
      show (if i < 10 then r i else g i) = r i
      rw [if_pos (Finset.mem_range.mp hi)])
  have havg : (∑ i ∈ Finset.range (runState p g r 10).sample_count,
        (runState p g r 10).sensor_samples i) / ((runState p g r 10).sample_count : ℚ) =
      (∑ i ∈ Finset.range 10, r i) / 10 := by
    have hsc : (runState p g r 10).sample_count = 10 := rfl
    have hc : ((10 : Nat) : ℚ) = 10 := by norm_num
    rw [hsc, hc, hsum]
  have hloop : ∀ (s : SchedState) (now : Nat) (reading : ℚ),
      loopStep s now reading wpa slp none =
        ((stateStep (safetyCheck s now) now reading wpa slp).1,
         (stateStep (safetyCheck s now) now reading wpa slp).2, "") :=
    fun s now reading => rfl
  have hActsEq : ∀ k, sampleRunActs p g r wpa slp k =
      (loopStep (sampleRun p g r wpa slp k) (1000 * (k + 2)) (r k) wpa slp none).2.1 :=
    fun k => rfl
  have hacts : sampleRunActs p g r wpa slp 10 =
      [.logAverage ((∑ i ∈ Finset.range 10, r i) / 10),
       .broadcastTelemetry (r 10)] := by
    rw [hActsEq, heq, hloop, h1, h2]
    dsimp only
    rw [havg]
  have hgen : ∀ k, sampleRun p g r wpa slp (k + 1) =
      (loopStep (sampleRun p g r wpa slp k) (1000 * (k + 2)) (r k) wpa slp none).1 :=
    fun k => rfl
  have hstate : sampleRun p g r wpa slp 11 =
      (loopStep (runState p g r 10) (1000 * (10 + 2)) (r 10) wpa slp none).1 := by
    have h11 := hgen 10
    have h1011 : (10 : Nat) + 1 = 11 := by norm_num
    rw [h1011] at h11
    rw [h11, heq]
  refine ⟨hacts, ?_, ?_⟩
  · rw [hstate, hloop, h1, h2]
    dsimp only
    split_ifs <;> rfl
  · rw [hstate, hloop, h1, h2]
    dsimp only
    split_ifs
    · left; rfl
    · right; rfl

/-- C5 (amended): in `SAMPLING` no action is taken before the 1-second
sample interval elapses; with sample capacity 10 the run from boot
collects exactly one reading per elapsed interval (iteration `k` records
reading `r k` as its only action), holds exactly `k` readings after `k`
iterations, first reaches `PROCESSING` precisely at the tenth sample, and
the `PROCESSING` step then averages exactly the ten collected values
(the average is printed to the debug log, while the telemetry broadcast
encodes the iteration's fresh battery reading) and performs no other
action — but leaves the sample count at 10 rather than resetting it to
zero (it is reset only at boot). -/
theorem c5_sampling_and_processing (p : Nat) (g r : Nat → ℚ) (wpa slp : Nat) :
    (∀ (s : SchedState) (now : Nat) (reading : ℚ),
        s.current_state = .SAMPLING →
        u32sub now s.last_sample_time < SAMPLE_INTERVAL_MS →
        stateStep s now reading wpa slp = (s, [])) ∧
    (∀ k, k ≤ 10 →
        (sampleRun p g r wpa slp k).current_state =
          (if k < 10 then .SAMPLING else .PROCESSING) ∧
        (sampleRun p g r wpa slp k).sample_count = k ∧
        ∀ i, i < k → (sampleRun p g r wpa slp k).sensor_samples i = r i) ∧
    (∀ k, k < 10 → sampleRunActs p g r wpa slp k = [.takeSample (r k)]) ∧
    sampleRunActs p g r wpa slp 10 =
      [.logAverage ((∑ i ∈ Finset.range 10, r i) / 10),
       .broadcastTelemetry (r 10)] ∧
    (sampleRun p g r wpa slp 11).sample_count = 10 := by
  refine ⟨?_, ?_, sampleRunActs_take p g r wpa slp,
    (sampleRun_processing_step p g r wpa slp).1,
    (sampleRun_processing_step p g r wpa slp).2.1⟩
  · intro s now reading hcs hlt
    obtain ⟨cs, sst, ast, wc, lia, ss, sc, lst⟩ := s
    simp only at hcs hlt
    subst hcs
    simp only [stateStep]
    rw [if_neg (by omega)]
  · intro k hk
    rw [sampleRun_eq p g r wpa slp k hk]
    refine ⟨rfl, rfl, ?_⟩
    intro i hi
    show (if i < k then r i else g i) = r i
    rw [if_pos hi]

/-- C5 witness: with readings `r i = i`, the run reaches `PROCESSING`
exactly after the tenth sample and iteration 10 logs the average of the
readings `0..9` and broadcasts the fresh reading. -/
theorem c5_witness :
    (sampleRun 0 (fun _ => 0) (fun i => (i : ℚ)) 100 3600 10).current_state =
      SensorNodeState.PROCESSING ∧
    (sampleRun 0 (fun _ => 0) (fun i => (i : ℚ)) 100 3600 10).sample_count = 10 ∧
    sampleRunActs 0 (fun _ => 0) (fun i => (i : ℚ)) 100 3600 10 =
      [.logAverage ((∑ i ∈ Finset.range 10, (i : ℚ)) / 10),
       .broadcastTelemetry ((10 : Nat) : ℚ)] := by
  have h := c5_sampling_and_processing 0 (fun _ => 0) (fun i => (i : ℚ)) 100 3600
  have h2 := h.2.1 10 le_rfl
  refine ⟨?_, h2.2.1, h.2.2.2.1⟩
  rw [h2.1]
  norm_num

/-- C5 counterexample: after the `PROCESSING` step of the run, the sample
count is still 10 — it is not reset to zero on entry to `PROCESSING`,
refuting the reset clause of the claim. -/
theorem c5_counterexample :
    (sampleRun 0 (fun _ => 0) (fun _ => 1) 100 3600 10).current_state =
      SensorNodeState.PROCESSING ∧
    (sampleRun 0 (fun _ => 0) (fun _ => 1) 100 3600 11).sample_count = 10 ∧
    (10 : Nat) ≠ 0 := by
  have h10 := sampleRun_eq 0 (fun _ => 0) (fun _ => 1) 100 3600 10 le_rfl
  have hp := sampleRun_processing_step 0 (fun _ => 0) (fun _ => 1) 100 3600
  refine ⟨?_, hp.2.1, by norm_num⟩
  rw [h10]
  unfold runState
  norm_num

end SleepySensor
